import Mathlib

/-!
Verification of the 3D anatomy browser's camera-pair view-synchronization and
model-loading pipeline, shallowly embedded from the repository's JavaScript
sources (the dual-view sync script, the single-view viewer `main.js`, and the
quiz modules).  Vectors and quaternions are modelled with exact rational
components; DOM surfaces (spinner, progress bar, info box, sync button) are
modelled by the state the scripts read and write on them.
-/

/-- A 3-component vector (three.js `Vector3`), with exact rational entries. -/
structure Vec3 where
  x : ℚ
  y : ℚ
  z : ℚ
deriving DecidableEq

/-- A quaternion (three.js `Quaternion`), with exact rational entries. -/
structure Quat where
  qx : ℚ
  qy : ℚ
  qz : ℚ
  qw : ℚ
deriving DecidableEq

/-- The mutable page state of the dual-view script: the module-level
`syncEnabled` flag, both cameras' poses, both `OrbitControls.enabled` flags,
the sync button's background color, the two scenes' object lists and the
`modelsLoaded` counter. -/
structure SyncState where
  syncEnabled : Bool
  camera1Pos : Vec3
  camera1Quat : Quat
  camera2Pos : Vec3
  camera2Quat : Quat
  controls1Enabled : Bool
  controls2Enabled : Bool
  syncButtonColor : String
  scene1Objects : List Nat
  scene2Objects : List Nat
  modelsLoaded : Nat
deriving DecidableEq

/-- The primitive state mutations performed by the dual-view script's
handlers, one constructor per JavaScript statement kind: setting a controls'
`enabled` flag, copying one camera's position and quaternion onto the other
(`camera.position.copy` followed by `camera.quaternion.copy`), an interaction
writing a camera pose, and a renderer draw call (no state effect). -/
inductive MicroOp where
  | setEnabled1 (b : Bool)
  | setEnabled2 (b : Bool)
  | copy12
  | copy21
  | setCam1 (p : Vec3) (q : Quat)
  | setCam2 (p : Vec3) (q : Quat)
  | render1
  | render2
deriving DecidableEq

/-- Effect of one primitive statement on the page state. -/
def runOp (s : SyncState) : MicroOp → SyncState
  | .setEnabled1 b => { s with controls1Enabled := b }
  | .setEnabled2 b => { s with controls2Enabled := b }
  | .copy12 => { s with camera2Pos := s.camera1Pos, camera2Quat := s.camera1Quat }
  | .copy21 => { s with camera1Pos := s.camera2Pos, camera1Quat := s.camera2Quat }
  | .setCam1 p q => { s with camera1Pos := p, camera1Quat := q }
  | .setCam2 p q => { s with camera2Pos := p, camera2Quat := q }
  | .render1 => s
  | .render2 => s

/-- Run a list of primitive statements in order. -/
def runOps (s : SyncState) (ops : List MicroOp) : SyncState :=
  ops.foldl runOp s

/-- The statement list of one `animate()` tick: when `syncEnabled`, disable
both controls, copy camera 1's position and quaternion onto camera 2, then
re-enable both controls; in every case render both scenes. -/
def animateOps (s : SyncState) : List MicroOp :=
  (if s.syncEnabled then
    [MicroOp.setEnabled1 false, MicroOp.setEnabled2 false, MicroOp.copy12,
     MicroOp.setEnabled1 true, MicroOp.setEnabled2 true]
  else []) ++ [MicroOp.render1, MicroOp.render2]

/-- Net effect of one `animate()` tick. -/
def animateTick (s : SyncState) : SyncState :=
  runOps s (animateOps s)

/-- The statement list of the `controls1` change listener: when `syncEnabled`,
copy camera 1's position and quaternion onto camera 2. -/
def change1Ops (s : SyncState) : List MicroOp :=
  if s.syncEnabled then [MicroOp.copy12] else []

/-- The statement list of the `controls2` change listener: when `syncEnabled`,
copy camera 2's position and quaternion onto camera 1. -/
def change2Ops (s : SyncState) : List MicroOp :=
  if s.syncEnabled then [MicroOp.copy21] else []

/-- A user interaction on viewport 1: when `controls1.enabled`, the orbit
handler writes the new pose onto camera 1 and dispatches the attached change
listener. -/
def interact1 (s : SyncState) (p : Vec3) (q : Quat) : SyncState :=
  if s.controls1Enabled then
    let s1 := runOp s (MicroOp.setCam1 p q)
    runOps s1 (change1Ops s1)
  else s

/-- A user interaction on viewport 2, symmetric to `interact1`. -/
def interact2 (s : SyncState) (p : Vec3) (q : Quat) : SyncState :=
  if s.controls2Enabled then
    let s1 := runOp s (MicroOp.setCam2 p q)
    runOps s1 (change2Ops s1)
  else s

/-- `toggleSync()`: negate `syncEnabled` and recolor the sync button, green
when enabled, red when disabled. -/
def toggleSync (s : SyncState) : SyncState :=
  let s1 := { s with syncEnabled := !s.syncEnabled }
  { s1 with syncButtonColor := if s1.syncEnabled then "#00FF00" else "#FF0000" }

/-- `copyProtectedAux s ops = true` when every camera-copy statement in `ops`
executes at a point where both interaction handlers are disabled. -/
def copyProtectedAux (s : SyncState) : List MicroOp → Bool
  | [] => true
  | op :: rest =>
    (match op with
     | MicroOp.copy12 => !s.controls1Enabled && !s.controls2Enabled
     | MicroOp.copy21 => !s.controls1Enabled && !s.controls2Enabled
     | _ => true) && copyProtectedAux (runOp s op) rest

/-- Top-level events the page processes after initialization: a user
interaction on either viewport, or an animation tick. -/
inductive PageEvent where
  | interactOne (p : Vec3) (q : Quat)
  | interactTwo (p : Vec3) (q : Quat)
  | tick
deriving DecidableEq

/-- Dispatch one page event. -/
def stepEvent (s : SyncState) : PageEvent → SyncState
  | .interactOne p q => interact1 s p q
  | .interactTwo p q => interact2 s p q
  | .tick => animateTick s

/-- Process a list of page events in order. -/
def runEvents (s : SyncState) (evs : List PageEvent) : SyncState :=
  evs.foldl stepEvent s

/-- Events that never touch viewport 2's controls (viewport-1 interactions
and animation ticks). -/
def avoidsViewport2 : PageEvent → Bool
  | .interactTwo _ _ => false
  | _ => true

/-- Events that never touch viewport 1's controls (viewport-2 interactions
and animation ticks). -/
def avoidsViewport1 : PageEvent → Bool
  | .interactOne _ _ => false
  | _ => true

/-- The page state right after initialization: sync enabled, both controls
enabled, green button, both models loaded, distinct camera poses. -/
def readyState : SyncState :=
  { syncEnabled := true, camera1Pos := ⟨0, 0, 5⟩,
    camera1Quat := ⟨0, 0, 0, 1⟩, camera2Pos := ⟨1, 1, 1⟩,
    camera2Quat := ⟨0, 1, 0, 0⟩, controls1Enabled := true,
    controls2Enabled := true, syncButtonColor := "#00FF00",
    scene1Objects := [0], scene2Objects := [1], modelsLoaded := 2 }

/-! ## Model loading: bounding geometry, scaling and camera framing -/

/-- `desiredSize = 2`, the target display size both loaders use. -/
def desiredSize : ℚ := 2

/-- `bbox.getSize`: componentwise extent of a bounding box given by its
min/max corners. -/
def bboxSize (bmin bmax : Vec3) : Vec3 :=
  ⟨bmax.x - bmin.x, bmax.y - bmin.y, bmax.z - bmin.z⟩

/-- `bbox.getCenter`: midpoint of the min/max corners. -/
def bboxCenter (bmin bmax : Vec3) : Vec3 :=
  ⟨(bmin.x + bmax.x) / 2, (bmin.y + bmax.y) / 2, (bmin.z + bmax.z) / 2⟩

/-- `Math.max(objectSize.x, objectSize.y, objectSize.z)`. -/
def maxDimension (sz : Vec3) : ℚ :=
  max sz.x (max sz.y sz.z)

/-- Squared Euclidean distance between two points. -/
def distSq (a b : Vec3) : ℚ :=
  (a.x - b.x) ^ 2 + (a.y - b.y) ^ 2 + (a.z - b.z) ^ 2

/-- The per-model base scale factor of `main.js`'s `switch (modelName)`
table; models not in the table keep the default factor 1. -/
def baseScaleFactor (modelName : String) : ℚ :=
  match modelName with
  | "lowerlimb_2_diffuse" => 3 / 4
  | "lowerlimb_2_polarized" => 3 / 4
  | "lowerlimb_diffuse" => 1
  | "lowerlimb_polarized" => 3 / 4
  | "lowerlimb_polarized_Annotations" => 4 / 5
  | "lowerlimb_diffuse_Annotations" => 4 / 5
  | "Upperlimb_diffuse" => 1
  | "Upperlimb_diffuse_Annotations" => 1
  | "Upperlimb_diffuse_quiz" => 1
  | "Upperlimb_polarized" => 1
  | "Upperlimb_polarized_Annotations" => 1
  | _ => 1

/-- The scale applied to the object in `main.js`'s load callback: the
per-model base factor multiplied by `scaleToFit = desiredSize / maxDimension`. -/
def appliedScaleFactor (modelName : String) (objectSize : Vec3) : ℚ :=
  baseScaleFactor modelName * (desiredSize / maxDimension objectSize)

/-- The scale applied in the dual-view script's `loadModel`: there the base
factor is the literal 1, so only `scaleToFit` remains. -/
def appliedScaleFactorDual (objectSize : Vec3) : ℚ :=
  1 * (desiredSize / maxDimension objectSize)

/-- Result of the camera-framing part of a load callback. -/
structure Framing where
  cameraPos : Vec3
  controlsTarget : Vec3
  scaleFactor : ℚ
deriving DecidableEq

/-- The load callback's framing computation, common to both loaders: the
object's bounding box gives its size and center; `sphereRadius` is the radius
of `bbox.getBoundingSphere` (computed inside the rendering library and passed
in here); the camera is placed at the center translated by
`(0, 0, sphereRadius * 2 * zoomFactor)` and the controls target at the
center.  `main.js` fixes `zoomFactor` to 1 (its distance multiplier is the
bare `objectRadius * 2`); the dual-view script passes a per-canvas zoom. -/
def loadModelFraming (bmin bmax : Vec3) (sphereRadius zoomFactor : ℚ)
    (baseScale : ℚ) : Framing :=
  let objectSize := bboxSize bmin bmax
  let scaleFactor := baseScale * (desiredSize / maxDimension objectSize)
  let objectPosition := bboxCenter bmin bmax
  let cameraDistance := sphereRadius * 2 * zoomFactor
  { cameraPos := ⟨objectPosition.x, objectPosition.y,
                  objectPosition.z + cameraDistance⟩,
    controlsTarget := objectPosition,
    scaleFactor := scaleFactor }

/-! ## Progress / busy-indicator surface -/

/-- The DOM state `main.js`'s loader drives: the spinner's visibility, the
loading bar's visibility and the progress element's width (a percentage). -/
structure LoaderUI where
  spinnerVisible : Bool
  barVisible : Bool
  progressWidth : ℚ
deriving DecidableEq

/-- Start of `loadModel` in `main.js`: `showSpinner()` and
`loading-bar.style.display = block`.  The progress width is not written. -/
def loadStart (u : LoaderUI) : LoaderUI :=
  { u with spinnerVisible := true, barVisible := true }

/-- The `onProgress` callback: width becomes `(loaded / total) * 100` percent. -/
def progressEvent (u : LoaderUI) (loaded total : ℚ) : LoaderUI :=
  { u with progressWidth := loaded / total * 100 }

/-- End of the success callback: the loading bar is hidden, then
`hideSpinner()`. -/
def loadSuccess (u : LoaderUI) : LoaderUI :=
  { u with barVisible := false, spinnerVisible := false }

/-- The error callback: the error is logged and `hideSpinner()` runs; the
loading bar is left as it is. -/
def loadError (u : LoaderUI) : LoaderUI :=
  { u with spinnerVisible := false }

/-- The dual-view page's busy state: one shared spinner and the module-level
`modelsLoaded` counter. -/
structure DualLoaderUI where
  spinnerVisible : Bool
  modelsLoaded : Nat
deriving DecidableEq

/-- Start of the dual-view `loadModel`: `showSpinner()`. -/
def dualLoadStart (u : DualLoaderUI) : DualLoaderUI :=
  { u with spinnerVisible := true }

/-- The dual-view success callback's bookkeeping: `modelsLoaded++`, and when
the counter reaches 2 the spinner is hidden. -/
def dualLoadSuccess (u : DualLoaderUI) : DualLoaderUI :=
  let u1 := { u with modelsLoaded := u.modelsLoaded + 1 }
  if u1.modelsLoaded = 2 then { u1 with spinnerVisible := false } else u1

/-! ## Pointer selection -/

/-- One raycaster intersection record: its distance from the camera and the
intersected object's `name`. -/
structure Hit where
  distance : ℚ
  name : String
deriving DecidableEq

/-- The info element's state after a pointer-down. -/
inductive InfoDisplay where
  | hidden
  | shown (text : String)
deriving DecidableEq

/-- Comparison by distance used by the raycaster's result ordering. -/
def hitLE (a b : Hit) : Prop :=
  a.distance ≤ b.distance

instance : DecidableRel hitLE := fun a b =>
  inferInstanceAs (Decidable (a.distance ≤ b.distance))

instance : IsTotal Hit hitLE := ⟨fun a b => le_total a.distance b.distance⟩

instance : IsTrans Hit hitLE := ⟨fun _ _ _ h1 h2 => le_trans h1 h2⟩

/-- `raycaster.intersectObjects(scene.children, true)`: the intersections,
sorted by ascending distance from the camera (the rendering library sorts
them before returning). -/
def intersectObjects (hits : List Hit) : List Hit :=
  List.insertionSort hitLE hits

/-- `pointer.x = ((event.clientX - rect.left) / rect.width) * 2 - 1`. -/
def computePointerX (clientX rectLeft rectWidth : ℚ) : ℚ :=
  (clientX - rectLeft) / rectWidth * 2 - 1

/-- `pointer.y = -((event.clientY - rect.top) / rect.height) * 2 + 1`. -/
def computePointerY (clientY rectTop rectHeight : ℚ) : ℚ :=
  -((clientY - rectTop) / rectHeight) * 2 + 1

/-- The decision `onPointerDown` takes on the intersection list: with no hit
the info element is hidden; otherwise the first (nearest) hit's name is
examined — the reserved placeholder name leaves the element hidden, any other
name is shown with underscores replaced by spaces. -/
def onPointerDown (hits : List Hit) : InfoDisplay :=
  match intersectObjects hits with
  | [] => InfoDisplay.hidden
  | h :: _ =>
    if h.name = "Mesh" then InfoDisplay.hidden
    else InfoDisplay.shown (String.replace (h.name) ("_") (" "))

/-! ## Quiz module -/

/-- One entry of the quiz's `quizData` array. -/
structure QuizQuestion where
  question : String
  options : List String
  answer : String
deriving DecidableEq

/-- The lowerlimb quiz's `quizData` array (the dual-view page's quiz). -/
def quizData : List QuizQuestion :=
  [{ question := "Name structure number 1",
     options := ["m quadratus lumborum", "m iliacus", "m psoas major",
                 "m psoas minor", "m multifidus", "m transversus abdominis"],
     answer := "m iliacus" },
   { question := "Name structure number 2",
     options := ["m vastus lateralis", "m vastus intermedius",
                 "m tractus iliotibialis", "m tensor facia latae",
                 "m vastus medialis", "m rectus femoris"],
     answer := "m tensor facia latae" },
   { question := "Name structure number 3",
     options := ["n peroneus communis", "n obturatorius", "n ischiadicus",
                 "n femoralis", "n tibialis", "n fibularis"],
     answer := "n femoralis" },
   { question := "Which of the following statements is correct for structure 4?",
     options := ["this nerve innervates the m adductor longus",
                 "this artery supplies blood to the tensor fascia latae",
                 "this artery supplies blood to the vastus lateralis",
                 "this vein receives blood from the v saphena magna",
                 "this vein goes to the external iliac crest",
                 "this artery is located in the lacuna vasorum"],
     answer := "this artery is located in the lacuna vasorum" },
   { question := "Which statement is false for structure 5?",
     options := ["the origin of this muscle is the anterior superior iliac spine",
                 "the insertion of this muscle is the facies medialis of the tibia, medial to the tuberosity",
                 "the innervation of this muscle is the n femoralis",
                 "the blood supply of this muscle is the a circumflexa femoris medialis",
                 "this muscle does, among other things, flexion and abduction of the thigh",
                 "this muscle is part of the pes anserinus"],
     answer := "the blood supply of this muscle is the a circumflexa femoris medialis" },
   { question := "Name structure number 6",
     options := ["m adductor longus", "m adductor brevis", "m adductor magnus",
                 "m adductor minimus", "m pectineus", "m gracilis"],
     answer := "m adductor longus" },
   { question := "Name structure number 7",
     options := ["a tibialis anterior", "a tibialis posterior",
                 "n peroneus superfiscialis", "n peroneus profundus",
                 "v saphenous parva", "v saphena magna"],
     answer := "v saphena magna" },
   { question := "What structure is not in this compartment (number 8)?",
     options := ["a tibialis posterior", "a peronea", "n tibialis",
                 "m plantaris", "m tibialis posterior", "m flexor hallucis longus"],
     answer := "m plantaris" },
   { question := "What is the origin of structure 9?",
     options := ["L4-S3", "L5-S2", "L1-L4", "T12-L5", "S1-S3", "S1-Co2"],
     answer := "L4-S3" },
   { question := "What is the insertion of structure 10?",
     options := ["fossa intertrochanterica femoris",
                 "linea intertrochanterica femoris", "greater trochanter femoris",
                 "lesser trochanter femoris", "linea aspera labium mediale",
                 "linea aspera labium laterale"],
     answer := "greater trochanter femoris" }]

/-- The quiz's mutable module state: `currentQuestion` and `score`. -/
structure QuizState where
  currentQuestion : Nat
  score : Nat
deriving DecidableEq

/-- `selectAnswer`: reads `quizData[currentQuestion].answer`, adds one to the
score exactly when the clicked button's text equals it, and advances
`currentQuestion`.  When no question with that index exists (the UI never
fires the handler then; in JavaScript the read would throw) the result is
`none`. -/
def selectAnswer (qd : List QuizQuestion) (qs : QuizState) (sel : String) :
    Option QuizState :=
  match qd[qs.currentQuestion]? with
  | none => none
  | some q =>
    some { currentQuestion := qs.currentQuestion + 1,
           score := if sel = q.answer then qs.score + 1 else qs.score }

/-- Run a list of answer selections from a given quiz state. -/
def runQuizFrom (qd : List QuizQuestion) (qs : QuizState)
    (sels : List String) : Option QuizState :=
  sels.foldl (fun acc sel => acc.bind (fun st => selectAnswer qd st sel)) (some qs)

/-- Run a list of answer selections from the initial state
(`currentQuestion = 0`, `score = 0`). -/
def runQuiz (qd : List QuizQuestion) (sels : List String) : Option QuizState :=
  runQuizFrom qd ⟨0, 0⟩ sels

/-- The number of selections in `sels` whose text equals the stored answer of
the question asked at the same position. -/
def correctCount (qd : List QuizQuestion) (sels : List String) : Nat :=
  (List.zip sels qd).countP (fun p => p.1 = p.2.answer)

/-- `showResult` displays `score/quizData.length`; this returns the displayed
numerator and denominator. -/
def showResult (qd : List QuizQuestion) (qs : QuizState) : Nat × Nat :=
  (qs.score, qd.length)

/-- `retakeQuiz`: both counters return to 0. -/
def retakeQuiz (_ : QuizState) : QuizState :=
  ⟨0, 0⟩

/-! ## Helper lemmas for the synchronizer's event semantics -/

theorem runOp_syncEnabled (s : SyncState) (op : MicroOp) :
    (runOp s op).syncEnabled = s.syncEnabled := by
  cases op <;> rfl

theorem runOps_syncEnabled (ops : List MicroOp) :
    ∀ s : SyncState, (runOps s ops).syncEnabled = s.syncEnabled := by
  induction ops with
  | nil => intro s; rfl
  | cons op rest ih =>
    intro s
    have h := ih (runOp s op)
    simp only [runOps, List.foldl_cons] at h ⊢
    rw [h, runOp_syncEnabled]

/-- Every page event preserves the "sync on, both controls enabled" steady
state the page is in between handler invocations. -/
theorem stepEvent_preserves_ready (s : SyncState) (ev : PageEvent)
    (hs : s.syncEnabled = true) (h1 : s.controls1Enabled = true)
    (h2 : s.controls2Enabled = true) :
    (stepEvent s ev).syncEnabled = true ∧
    (stepEvent s ev).controls1Enabled = true ∧
    (stepEvent s ev).controls2Enabled = true := by
  cases ev with
  | interactOne p q =>
    simp [stepEvent, interact1, h1, h2, hs, change1Ops, runOps, runOp]
  | interactTwo p q =>
    simp [stepEvent, interact2, h1, h2, hs, change2Ops, runOps, runOp]
  | tick =>
    simp [stepEvent, animateTick, animateOps, hs, runOps, runOp]

theorem runEvents_preserves_ready (evs : List PageEvent) :
    ∀ s : SyncState, s.syncEnabled = true → s.controls1Enabled = true →
      s.controls2Enabled = true →
      (runEvents s evs).syncEnabled = true ∧
      (runEvents s evs).controls1Enabled = true ∧
      (runEvents s evs).controls2Enabled = true := by
  induction evs with
  | nil => intro s hs h1 h2; exact ⟨hs, h1, h2⟩
  | cons ev rest ih =>
    intro s hs h1 h2
    have hstep := stepEvent_preserves_ready s ev hs h1 h2
    have h := ih (stepEvent s ev) hstep.1 hstep.2.1 hstep.2.2
    simpa only [runEvents, List.foldl_cons] using h

/-- With sync off, a viewport-1 interaction or a tick leaves camera 2's pose
(and the sync flag) untouched. -/
theorem stepEvent_syncOff_keeps_cam2 (s : SyncState) (ev : PageEvent)
    (hs : s.syncEnabled = false) (hev : avoidsViewport2 ev = true) :
    (stepEvent s ev).syncEnabled = false ∧
    (stepEvent s ev).camera2Pos = s.camera2Pos ∧
    (stepEvent s ev).camera2Quat = s.camera2Quat := by
  cases ev with
  | interactOne p q =>
    cases h : s.controls1Enabled <;>
      simp [stepEvent, interact1, h, hs, change1Ops, runOps, runOp]
  | interactTwo p q => simp [avoidsViewport2] at hev
  | tick =>
    simp [stepEvent, animateTick, animateOps, hs, runOps, runOp]

/-- With sync off, a viewport-2 interaction or a tick leaves camera 1's pose
(and the sync flag) untouched. -/
theorem stepEvent_syncOff_keeps_cam1 (s : SyncState) (ev : PageEvent)
    (hs : s.syncEnabled = false) (hev : avoidsViewport1 ev = true) :
    (stepEvent s ev).syncEnabled = false ∧
    (stepEvent s ev).camera1Pos = s.camera1Pos ∧
    (stepEvent s ev).camera1Quat = s.camera1Quat := by
  cases ev with
  | interactOne p q => simp [avoidsViewport1] at hev
  | interactTwo p q =>
    cases h : s.controls2Enabled <;>
      simp [stepEvent, interact2, h, hs, change2Ops, runOps, runOp]
  | tick =>
    simp [stepEvent, animateTick, animateOps, hs, runOps, runOp]

theorem runEvents_syncOff_keeps_cam2 (evs : List PageEvent) :
    ∀ s : SyncState, s.syncEnabled = false → evs.all avoidsViewport2 = true →
      (runEvents s evs).syncEnabled = false ∧
      (runEvents s evs).camera2Pos = s.camera2Pos ∧
      (runEvents s evs).camera2Quat = s.camera2Quat := by
  induction evs with
  | nil => intro s hs _; exact ⟨hs, rfl, rfl⟩
  | cons ev rest ih =>
    intro s hs hall
    rw [List.all_cons, Bool.and_eq_true] at hall
    have hstep := stepEvent_syncOff_keeps_cam2 s ev hs hall.1
    have h := ih (stepEvent s ev) hstep.1 hall.2
    simp only [runEvents, List.foldl_cons] at h ⊢
    exact ⟨h.1, h.2.1.trans hstep.2.1, h.2.2.trans hstep.2.2⟩

theorem runEvents_syncOff_keeps_cam1 (evs : List PageEvent) :
    ∀ s : SyncState, s.syncEnabled = false → evs.all avoidsViewport1 = true →
      (runEvents s evs).syncEnabled = false ∧
      (runEvents s evs).camera1Pos = s.camera1Pos ∧
      (runEvents s evs).camera1Quat = s.camera1Quat := by
  induction evs with
  | nil => intro s hs _; exact ⟨hs, rfl, rfl⟩
  | cons ev rest ih =>
    intro s hs hall
    rw [List.all_cons, Bool.and_eq_true] at hall
    have hstep := stepEvent_syncOff_keeps_cam1 s ev hs hall.1
    have h := ih (stepEvent s ev) hstep.1 hall.2
    simp only [runEvents, List.foldl_cons] at h ⊢
    exact ⟨h.1, h.2.1.trans hstep.2.1, h.2.2.trans hstep.2.2⟩

/-! ## Claims about the dual-view synchronizer -/

/-- C1: when sync is enabled (and the page is in its steady state with both
interaction handlers enabled), after any interaction-driven pose change on one
viewport — at the end of any event sequence, so in particular for every
sequence of alternating viewport-1/viewport-2 interactions — the other
viewport's camera position and orientation equal the changed viewport's, in
both directions: both cameras carry exactly the pose the last interaction
wrote. -/
theorem syncOn_mirrors_interactions (s : SyncState) (evs : List PageEvent)
    (p : Vec3) (q : Quat) (hs : s.syncEnabled = true)
    (h1 : s.controls1Enabled = true) (h2 : s.controls2Enabled = true) :
    ((runEvents s (evs ++ [PageEvent.interactOne p q])).camera1Pos = p ∧
     (runEvents s (evs ++ [PageEvent.interactOne p q])).camera1Quat = q ∧
     (runEvents s (evs ++ [PageEvent.interactOne p q])).camera2Pos = p ∧
     (runEvents s (evs ++ [PageEvent.interactOne p q])).camera2Quat = q) ∧
    ((runEvents s (evs ++ [PageEvent.interactTwo p q])).camera1Pos = p ∧
     (runEvents s (evs ++ [PageEvent.interactTwo p q])).camera1Quat = q ∧
     (runEvents s (evs ++ [PageEvent.interactTwo p q])).camera2Pos = p ∧
     (runEvents s (evs ++ [PageEvent.interactTwo p q])).camera2Quat = q) := by
  have hready := runEvents_preserves_ready evs s hs h1 h2
  have hsplit : ∀ ev : PageEvent,
      runEvents s (evs ++ [ev]) = stepEvent (runEvents s evs) ev := by
    intro ev
    simp [runEvents, List.foldl_append]
  constructor
  · rw [hsplit]
    simp [stepEvent, interact1, hready.1, hready.2.1, hready.2.2,
          change1Ops, runOps, runOp]
  · rw [hsplit]
    simp [stepEvent, interact2, hready.1, hready.2.1, hready.2.2,
          change2Ops, runOps, runOp]

/-- Witness for C1 at a concrete state and event sequence. -/
theorem syncOn_mirrors_interactions_witness :
    readyState.syncEnabled = true ∧ readyState.controls1Enabled = true ∧
    readyState.controls2Enabled = true ∧
    (((runEvents readyState
        ([PageEvent.interactTwo ⟨7, 8, 9⟩ ⟨1, 0, 0, 0⟩, PageEvent.tick] ++
         [PageEvent.interactOne ⟨2, 3, 4⟩ ⟨0, 1, 0, 0⟩])).camera1Pos = ⟨2, 3, 4⟩ ∧
      (runEvents readyState
        ([PageEvent.interactTwo ⟨7, 8, 9⟩ ⟨1, 0, 0, 0⟩, PageEvent.tick] ++
         [PageEvent.interactOne ⟨2, 3, 4⟩ ⟨0, 1, 0, 0⟩])).camera1Quat = ⟨0, 1, 0, 0⟩ ∧
      (runEvents readyState
        ([PageEvent.interactTwo ⟨7, 8, 9⟩ ⟨1, 0, 0, 0⟩, PageEvent.tick] ++
         [PageEvent.interactOne ⟨2, 3, 4⟩ ⟨0, 1, 0, 0⟩])).camera2Pos = ⟨2, 3, 4⟩ ∧
      (runEvents readyState
        ([PageEvent.interactTwo ⟨7, 8, 9⟩ ⟨1, 0, 0, 0⟩, PageEvent.tick] ++
         [PageEvent.interactOne ⟨2, 3, 4⟩ ⟨0, 1, 0, 0⟩])).camera2Quat = ⟨0, 1, 0, 0⟩) ∧
     ((runEvents readyState
        ([PageEvent.interactTwo ⟨7, 8, 9⟩ ⟨1, 0, 0, 0⟩, PageEvent.tick] ++
         [PageEvent.interactTwo ⟨2, 3, 4⟩ ⟨0, 1, 0, 0⟩])).camera1Pos = ⟨2, 3, 4⟩ ∧
      (runEvents readyState
        ([PageEvent.interactTwo ⟨7, 8, 9⟩ ⟨1, 0, 0, 0⟩, PageEvent.tick] ++
         [PageEvent.interactTwo ⟨2, 3, 4⟩ ⟨0, 1, 0, 0⟩])).camera1Quat = ⟨0, 1, 0, 0⟩ ∧
      (runEvents readyState
        ([PageEvent.interactTwo ⟨7, 8, 9⟩ ⟨1, 0, 0, 0⟩, PageEvent.tick] ++
         [PageEvent.interactTwo ⟨2, 3, 4⟩ ⟨0, 1, 0, 0⟩])).camera2Pos = ⟨2, 3, 4⟩ ∧
      (runEvents readyState
        ([PageEvent.interactTwo ⟨7, 8, 9⟩ ⟨1, 0, 0, 0⟩, PageEvent.tick] ++
         [PageEvent.interactTwo ⟨2, 3, 4⟩ ⟨0, 1, 0, 0⟩])).camera2Quat = ⟨0, 1, 0, 0⟩)) :=
  ⟨rfl, rfl, rfl,
   syncOn_mirrors_interactions readyState
     [PageEvent.interactTwo ⟨7, 8, 9⟩ ⟨1, 0, 0, 0⟩, PageEvent.tick]
     ⟨2, 3, 4⟩ ⟨0, 1, 0, 0⟩ rfl rfl rfl⟩

/-- C5: on every animation tick while sync is enabled, camera 2's position
and orientation are overwritten with camera 1's, and camera 1 is left
unchanged — the tick copy is always camera-1 into camera-2, whatever state
the page (and therefore the user's interaction history) is in. -/
theorem animateTick_copies_cam1_into_cam2 (s : SyncState)
    (hs : s.syncEnabled = true) :
    (animateTick s).camera2Pos = s.camera1Pos ∧
    (animateTick s).camera2Quat = s.camera1Quat ∧
    (animateTick s).camera1Pos = s.camera1Pos ∧
    (animateTick s).camera1Quat = s.camera1Quat := by
  simp [animateTick, animateOps, hs, runOps, runOp]

/-- Witness for C5: a tick on a state the user last drove from viewport 2
still overwrites camera 2 with camera 1's pose. -/
theorem animateTick_copies_cam1_into_cam2_witness :
    (interact2 readyState ⟨7, 8, 9⟩ ⟨1, 0, 0, 0⟩).syncEnabled = true ∧
    ((animateTick (interact2 readyState ⟨7, 8, 9⟩ ⟨1, 0, 0, 0⟩)).camera2Pos =
       (interact2 readyState ⟨7, 8, 9⟩ ⟨1, 0, 0, 0⟩).camera1Pos ∧
     (animateTick (interact2 readyState ⟨7, 8, 9⟩ ⟨1, 0, 0, 0⟩)).camera2Quat =
       (interact2 readyState ⟨7, 8, 9⟩ ⟨1, 0, 0, 0⟩).camera1Quat ∧
     (animateTick (interact2 readyState ⟨7, 8, 9⟩ ⟨1, 0, 0, 0⟩)).camera1Pos =
       (interact2 readyState ⟨7, 8, 9⟩ ⟨1, 0, 0, 0⟩).camera1Pos ∧
     (animateTick (interact2 readyState ⟨7, 8, 9⟩ ⟨1, 0, 0, 0⟩)).camera1Quat =
       (interact2 readyState ⟨7, 8, 9⟩ ⟨1, 0, 0, 0⟩).camera1Quat) :=
  ⟨rfl, animateTick_copies_cam1_into_cam2
          (interact2 readyState ⟨7, 8, 9⟩ ⟨1, 0, 0, 0⟩) rfl⟩

/-- C6: when sync is disabled, no sequence of viewport-1 interactions and
animation ticks changes camera 2's position or quaternion, and no sequence of
viewport-2 interactions and ticks changes camera 1's. -/
theorem syncOff_isolates_viewports (s : SyncState) (evs1 evs2 : List PageEvent)
    (hs : s.syncEnabled = false)
    (hv1 : evs1.all avoidsViewport2 = true)
    (hv2 : evs2.all avoidsViewport1 = true) :
    ((runEvents s evs1).camera2Pos = s.camera2Pos ∧
     (runEvents s evs1).camera2Quat = s.camera2Quat) ∧
    ((runEvents s evs2).camera1Pos = s.camera1Pos ∧
     (runEvents s evs2).camera1Quat = s.camera1Quat) := by
  have h1 := runEvents_syncOff_keeps_cam2 evs1 s hs hv1
  have h2 := runEvents_syncOff_keeps_cam1 evs2 s hs hv2
  exact ⟨⟨h1.2.1, h1.2.2⟩, ⟨h2.2.1, h2.2.2⟩⟩

/-- Witness for C6: toggle sync off from the ready state, then rotate
viewport 1 (with ticks); camera 2's pose is exactly its pre-rotation value —
and symmetrically. -/
theorem syncOff_isolates_viewports_witness :
    (toggleSync readyState).syncEnabled = false ∧
    ([PageEvent.interactOne ⟨2, 3, 4⟩ ⟨0, 0, 1, 0⟩,
      PageEvent.tick].all avoidsViewport2 = true) ∧
    ([PageEvent.interactTwo ⟨5, 6, 7⟩ ⟨0, 0, 0, 1⟩,
      PageEvent.tick].all avoidsViewport1 = true) ∧
    (((runEvents (toggleSync readyState)
        [PageEvent.interactOne ⟨2, 3, 4⟩ ⟨0, 0, 1, 0⟩, PageEvent.tick]).camera2Pos =
        (toggleSync readyState).camera2Pos ∧
      (runEvents (toggleSync readyState)
        [PageEvent.interactOne ⟨2, 3, 4⟩ ⟨0, 0, 1, 0⟩, PageEvent.tick]).camera2Quat =
        (toggleSync readyState).camera2Quat) ∧
     ((runEvents (toggleSync readyState)
        [PageEvent.interactTwo ⟨5, 6, 7⟩ ⟨0, 0, 0, 1⟩, PageEvent.tick]).camera1Pos =
        (toggleSync readyState).camera1Pos ∧
      (runEvents (toggleSync readyState)
        [PageEvent.interactTwo ⟨5, 6, 7⟩ ⟨0, 0, 0, 1⟩, PageEvent.tick]).camera1Quat =
        (toggleSync readyState).camera1Quat)) :=
  ⟨rfl, rfl, rfl,
   syncOff_isolates_viewports (toggleSync readyState)
     [PageEvent.interactOne ⟨2, 3, 4⟩ ⟨0, 0, 1, 0⟩, PageEvent.tick]
     [PageEvent.interactTwo ⟨5, 6, 7⟩ ⟨0, 0, 0, 1⟩, PageEvent.tick]
     rfl rfl rfl⟩

/-- C4 counterexample: in the steady state with sync enabled and both
handlers enabled, the `controls1` change listener performs its camera copy
while both interaction handlers are still enabled — the listener contains no
disable/re-enable statements at all, so the copy is not protected. -/
theorem changeListener_copy_unprotected :
    readyState.syncEnabled = true ∧
    readyState.controls1Enabled = true ∧
    readyState.controls2Enabled = true ∧
    change1Ops readyState = [MicroOp.copy12] ∧
    copyProtectedAux readyState (change1Ops readyState) = false ∧
    change2Ops readyState = [MicroOp.copy21] ∧
    copyProtectedAux readyState (change2Ops readyState) = false :=
  ⟨rfl, rfl, rfl, rfl, rfl, rfl, rfl⟩

/-- C4 amended: only the animation tick's copy runs as a
disable/copy/re-enable critical section — every copy statement of an
`animate()` tick executes with both interaction handlers disabled, and both
are re-enabled by the end of the tick; the change-event listeners, by
contrast, perform their copy without touching either handler's enabled flag. -/
theorem animate_copy_critical_section (s : SyncState)
    (h1 : s.controls1Enabled = true) (h2 : s.controls2Enabled = true) :
    copyProtectedAux s (animateOps s) = true ∧
    (animateTick s).controls1Enabled = true ∧
    (animateTick s).controls2Enabled = true ∧
    (runOps s (change1Ops s)).controls1Enabled = true ∧
    (runOps s (change1Ops s)).controls2Enabled = true ∧
    (runOps s (change2Ops s)).controls1Enabled = true ∧
    (runOps s (change2Ops s)).controls2Enabled = true := by
  cases hsync : s.syncEnabled <;>
    simp [animateOps, animateTick, change1Ops, change2Ops, copyProtectedAux,
          runOps, runOp, hsync, h1, h2]

/-- Witness for the amended C4 at the concrete ready state. -/
theorem animate_copy_critical_section_witness :
    readyState.controls1Enabled = true ∧
    readyState.controls2Enabled = true ∧
    (copyProtectedAux readyState (animateOps readyState) = true ∧
     (animateTick readyState).controls1Enabled = true ∧
     (animateTick readyState).controls2Enabled = true ∧
     (runOps readyState (change1Ops readyState)).controls1Enabled = true ∧
     (runOps readyState (change1Ops readyState)).controls2Enabled = true ∧
     (runOps readyState (change2Ops readyState)).controls1Enabled = true ∧
     (runOps readyState (change2Ops readyState)).controls2Enabled = true) :=
  ⟨rfl, rfl, animate_copy_critical_section readyState rfl rfl⟩

/-- C9: `toggleSync` negates the process-wide sync flag, recolors the toggle
(green exactly when the new flag is on, red otherwise), and leaves every
other component of the page state — both cameras' positions and
orientations, both handlers' enabled flags, both scenes' contents and the
loader counter — unchanged. -/
theorem toggleSync_flips_flag_and_color_only (s : SyncState) :
    (toggleSync s).syncEnabled = !s.syncEnabled ∧
    (toggleSync s).syncButtonColor =
      (if !s.syncEnabled then "#00FF00" else "#FF0000") ∧
    (toggleSync s).camera1Pos = s.camera1Pos ∧
    (toggleSync s).camera1Quat = s.camera1Quat ∧
    (toggleSync s).camera2Pos = s.camera2Pos ∧
    (toggleSync s).camera2Quat = s.camera2Quat ∧
    (toggleSync s).controls1Enabled = s.controls1Enabled ∧
    (toggleSync s).controls2Enabled = s.controls2Enabled ∧
    (toggleSync s).scene1Objects = s.scene1Objects ∧
    (toggleSync s).scene2Objects = s.scene2Objects ∧
    (toggleSync s).modelsLoaded = s.modelsLoaded :=
  ⟨rfl, rfl, rfl, rfl, rfl, rfl, rfl, rfl, rfl, rfl, rfl⟩

/-! ## Claims about model loading -/

/-- C2: after a successful load the controls target is the model centroid
(the bounding-box center) and the camera sits along the +Z axis from it —
equal x and y, z offset `sphereRadius * 2 * zoomFactor` — at squared
distance `(sphereRadius * 2 * zoomFactor)^2` from the centroid, the offset
being nonnegative. -/
theorem loadModel_camera_framing (bmin bmax : Vec3) (r zf b : ℚ)
    (hr : 0 ≤ r) (hz : 0 ≤ zf) :
    (loadModelFraming bmin bmax r zf b).controlsTarget = bboxCenter bmin bmax ∧
    (loadModelFraming bmin bmax r zf b).cameraPos.x = (bboxCenter bmin bmax).x ∧
    (loadModelFraming bmin bmax r zf b).cameraPos.y = (bboxCenter bmin bmax).y ∧
    (loadModelFraming bmin bmax r zf b).cameraPos.z =
      (bboxCenter bmin bmax).z + r * 2 * zf ∧
    distSq (loadModelFraming bmin bmax r zf b).cameraPos
      (loadModelFraming bmin bmax r zf b).controlsTarget = (r * 2 * zf) ^ 2 ∧
    0 ≤ r * 2 * zf := by
  refine ⟨rfl, rfl, rfl, rfl, ?_, ?_⟩
  · simp only [loadModelFraming, distSq, bboxCenter]
    ring
  · positivity

/-- Witness for C2 on a concrete bounding box (radius 3/2, zoom 4/5). -/
theorem loadModel_camera_framing_witness :
    (0 : ℚ) ≤ 3 / 2 ∧ (0 : ℚ) ≤ 4 / 5 ∧
    ((loadModelFraming ⟨0, 0, 0⟩ ⟨2, 1, 2⟩ (3 / 2) (4 / 5) 1).controlsTarget =
       bboxCenter ⟨0, 0, 0⟩ ⟨2, 1, 2⟩ ∧
     (loadModelFraming ⟨0, 0, 0⟩ ⟨2, 1, 2⟩ (3 / 2) (4 / 5) 1).cameraPos.x =
       (bboxCenter ⟨0, 0, 0⟩ ⟨2, 1, 2⟩).x ∧
     (loadModelFraming ⟨0, 0, 0⟩ ⟨2, 1, 2⟩ (3 / 2) (4 / 5) 1).cameraPos.y =
       (bboxCenter ⟨0, 0, 0⟩ ⟨2, 1, 2⟩).y ∧
     (loadModelFraming ⟨0, 0, 0⟩ ⟨2, 1, 2⟩ (3 / 2) (4 / 5) 1).cameraPos.z =
       (bboxCenter ⟨0, 0, 0⟩ ⟨2, 1, 2⟩).z + 3 / 2 * 2 * (4 / 5) ∧
     distSq (loadModelFraming ⟨0, 0, 0⟩ ⟨2, 1, 2⟩ (3 / 2) (4 / 5) 1).cameraPos
       (loadModelFraming ⟨0, 0, 0⟩ ⟨2, 1, 2⟩ (3 / 2) (4 / 5) 1).controlsTarget =
       (3 / 2 * 2 * (4 / 5)) ^ 2 ∧
     (0 : ℚ) ≤ 3 / 2 * 2 * (4 / 5)) :=
  ⟨by norm_num, by norm_num,
   loadModel_camera_framing ⟨0, 0, 0⟩ ⟨2, 1, 2⟩ (3 / 2) (4 / 5) 1
     (by norm_num) (by norm_num)⟩

/-- C3 counterexample: for the model `lowerlimb_2_diffuse` (per-model base
factor 3/4) and a bounding box of extents (4, 2, 1), the applied scale factor
times the maximum extent is 3/2, not the desired display size 2. -/
theorem scaleFactor_base_model_cex :
    maxDimension ⟨4, 2, 1⟩ *
      appliedScaleFactor ("lowerlimb_2_diffuse") ⟨4, 2, 1⟩ ≠ desiredSize := by
  have hb : baseScaleFactor ("lowerlimb_2_diffuse") = 3 / 4 := rfl
  unfold appliedScaleFactor
  rw [hb]
  norm_num [maxDimension, max_def, desiredSize]

/-- C3 amended: the maximum bounding-box extent times the applied scale
factor equals the per-model base factor times the desired display size —
independent of the model's original units — so it equals the desired display
size exactly when the base factor is 1; in the dual-view loader, whose base
factor is the literal 1, the identity holds for every model. -/
theorem scaleFactor_normalizes_extent (modelName : String) (sz : Vec3)
    (h : maxDimension sz ≠ 0) :
    maxDimension sz * appliedScaleFactor modelName sz =
      baseScaleFactor modelName * desiredSize ∧
    maxDimension sz * appliedScaleFactorDual sz = desiredSize := by
  constructor
  · unfold appliedScaleFactor
    field_simp
    try ring
  · unfold appliedScaleFactorDual
    field_simp
    try ring

/-- Witness for the amended C3: a tabled model and a default-named model on a
concrete bounding box. -/
theorem scaleFactor_normalizes_extent_witness :
    maxDimension ⟨4, 2, 1⟩ ≠ 0 ∧
    (maxDimension ⟨4, 2, 1⟩ *
       appliedScaleFactor ("lowerlimb_2_diffuse") ⟨4, 2, 1⟩ =
       baseScaleFactor ("lowerlimb_2_diffuse") * desiredSize ∧
     maxDimension ⟨4, 2, 1⟩ * appliedScaleFactorDual ⟨4, 2, 1⟩ = desiredSize) :=
  ⟨by norm_num [maxDimension, max_def],
   scaleFactor_normalizes_extent ("lowerlimb_2_diffuse") ⟨4, 2, 1⟩
     (by norm_num [maxDimension, max_def])⟩

/-! ## Claims about the progress surface -/

/-- C7 counterexample: starting `loadModel` with a stale progress width of
100 leaves the width at 100 (no reset to 0 at load start), and a load ending
in the error callback leaves the progress bar visible (only the spinner is
hidden), so the surface is not hidden at every load termination. -/
theorem progress_surface_cex :
    (loadStart ⟨false, false, 100⟩).progressWidth = 100 ∧
    (loadStart ⟨false, false, 100⟩).progressWidth ≠ 0 ∧
    (loadError (loadStart ⟨false, false, 100⟩)).barVisible = true ∧
    (loadError (loadStart ⟨false, false, 100⟩)).spinnerVisible = false := by
  refine ⟨rfl, ?_, rfl, rfl⟩
  norm_num [loadStart]

/-- C7 amended: at load start the spinner and bar are shown but the progress
width keeps its previous value; each progress event sets the width to
`loaded / total * 100` and touches nothing else; on success both bar and
spinner are hidden; on error only the spinner is hidden and the bar keeps
its state.  In the two-panel view the success callback counts completed
loads and the spinner is hidden exactly when the counter reaches 2: still
shown after the first completed load, hidden after the second. -/
theorem progress_surface_lifecycle (u : LoaderUI) (d : DualLoaderUI)
    (loaded total : ℚ) :
    (loadStart u).spinnerVisible = true ∧
    (loadStart u).barVisible = true ∧
    (loadStart u).progressWidth = u.progressWidth ∧
    (progressEvent u loaded total).progressWidth = loaded / total * 100 ∧
    (progressEvent u loaded total).spinnerVisible = u.spinnerVisible ∧
    (progressEvent u loaded total).barVisible = u.barVisible ∧
    (loadSuccess u).spinnerVisible = false ∧
    (loadSuccess u).barVisible = false ∧
    (loadError u).spinnerVisible = false ∧
    (loadError u).barVisible = u.barVisible ∧
    (dualLoadSuccess d).modelsLoaded = d.modelsLoaded + 1 ∧
    (dualLoadSuccess (dualLoadStart (dualLoadStart ⟨false, 0⟩))).spinnerVisible =
      true ∧
    (dualLoadSuccess (dualLoadSuccess (dualLoadStart
      (dualLoadStart ⟨false, 0⟩)))).spinnerVisible = false := by
  refine ⟨rfl, rfl, rfl, rfl, rfl, rfl, rfl, rfl, rfl, rfl, ?_, rfl, rfl⟩
  by_cases hc : d.modelsLoaded + 1 = 2 <;> simp [dualLoadSuccess, hc]

/-! ## Claims about pointer selection -/

/-- C8: with no intersection the info display is hidden; otherwise the first
entry of the distance-sorted intersection list is a nearest hit among all
scene hits, and the display shows its name with every underscore replaced by
a space unless that name is the reserved placeholder value, in which case
the display is hidden. -/
theorem pointer_selection_display (hits : List Hit) (h : Hit) (t : List Hit)
    (hsort : intersectObjects hits = h :: t) :
    h ∈ hits ∧
    (∀ h2 ∈ hits, h.distance ≤ h2.distance) ∧
    (h.name ≠ "Mesh" →
      onPointerDown hits =
        InfoDisplay.shown (String.replace (h.name) ("_") (" "))) ∧
    (h.name = "Mesh" → onPointerDown hits = InfoDisplay.hidden) ∧
    onPointerDown [] = InfoDisplay.hidden := by
  have hmem : h ∈ hits := by
    have hh : h ∈ intersectObjects hits := by
      rw [hsort]; exact List.mem_cons_self h t
    rw [intersectObjects] at hh
    exact (List.mem_insertionSort hitLE).mp hh
  have hsorted : List.Sorted hitLE (h :: t) := by
    rw [← hsort, intersectObjects]
    exact List.sorted_insertionSort hitLE hits
  have hmin : ∀ h2 ∈ hits, h.distance ≤ h2.distance := by
    intro h2 hh2
    have hh2s : h2 ∈ (h :: t) := by
      rw [← hsort, intersectObjects]
      exact (List.mem_insertionSort hitLE).mpr hh2
    rcases List.mem_cons.mp hh2s with heq | hht
    · rw [heq]
    · exact List.rel_of_sorted_cons hsorted h2 hht
  have hopd : onPointerDown hits =
      if h.name = "Mesh" then InfoDisplay.hidden
      else InfoDisplay.shown (String.replace (h.name) ("_") (" ")) := by
    unfold onPointerDown
    rw [hsort]
  refine ⟨hmem, hmin, ?_, ?_, rfl⟩
  · intro hne
    rw [hopd, if_neg hne]
  · intro heq
    rw [hopd, if_pos heq]

/-- Witness for C8 on a concrete two-hit intersection list: the nearer hit's
name is displayed with underscores replaced by spaces. -/
theorem pointer_selection_display_witness :
    intersectObjects [⟨3, "m_biceps_brachii"⟩, ⟨1, "n_medianus"⟩] =
      [⟨1, "n_medianus"⟩, ⟨3, "m_biceps_brachii"⟩] ∧
    ((⟨1, "n_medianus"⟩ : Hit) ∈
       [(⟨3, "m_biceps_brachii"⟩ : Hit), ⟨1, "n_medianus"⟩] ∧
     (∀ h2 ∈ [(⟨3, "m_biceps_brachii"⟩ : Hit), ⟨1, "n_medianus"⟩],
       (1 : ℚ) ≤ h2.distance) ∧
     ("n_medianus" ≠ "Mesh" →
       onPointerDown [⟨3, "m_biceps_brachii"⟩, ⟨1, "n_medianus"⟩] =
         InfoDisplay.shown (String.replace ("n_medianus") ("_") (" "))) ∧
     ("n_medianus" = "Mesh" →
       onPointerDown [⟨3, "m_biceps_brachii"⟩, ⟨1, "n_medianus"⟩] =
         InfoDisplay.hidden) ∧
     onPointerDown [] = InfoDisplay.hidden) :=
  ⟨by norm_num [intersectObjects, List.insertionSort, List.orderedInsert, hitLE],
   pointer_selection_display [⟨3, "m_biceps_brachii"⟩, ⟨1, "n_medianus"⟩]
     ⟨1, "n_medianus"⟩ [⟨3, "m_biceps_brachii"⟩]
     (by norm_num [intersectObjects, List.insertionSort, List.orderedInsert,
                   hitLE])⟩

/-! ## Claims about the quiz module -/

theorem runQuizFrom_of_none (qd : List QuizQuestion) (sels : List String) :
    sels.foldl (fun acc sel => acc.bind (fun st => selectAnswer qd st sel))
      none = none := by
  induction sels with
  | nil => rfl
  | cons sel rest ih =>
    simp only [List.foldl_cons, Option.none_bind]
    exact ih

/-- Running a selection list from any quiz state, when it succeeds, advances
`currentQuestion` by the number of selections, never past the question count,
and adds to the score exactly the number of selections matching the answer of
the question asked at the same offset. -/
theorem runQuizFrom_characterization (qd : List QuizQuestion)
    (sels : List String) :
    ∀ qs qs' : QuizState, runQuizFrom qd qs sels = some qs' →
      qs'.currentQuestion = qs.currentQuestion + sels.length ∧
      qs'.currentQuestion ≤ max qs.currentQuestion qd.length ∧
      qs'.score = qs.score +
        (List.zip sels (qd.drop qs.currentQuestion)).countP
          (fun p => p.1 = p.2.answer) := by
  induction sels with
  | nil =>
    intro qs qs' hrun
    have hqs : qs = qs' := by
      simpa [runQuizFrom] using hrun
    subst hqs
    exact ⟨rfl, le_max_left _ _, by simp⟩
  | cons sel rest ih =>
    intro qs qs' hrun
    simp only [runQuizFrom, List.foldl_cons, Option.some_bind] at hrun
    cases hq : qd[qs.currentQuestion]? with
    | none =>
      rw [selectAnswer, hq] at hrun
      rw [runQuizFrom_of_none qd rest] at hrun
      cases hrun
    | some q =>
      rw [selectAnswer, hq] at hrun
      have hstep := ih
        ⟨qs.currentQuestion + 1,
         if sel = q.answer then qs.score + 1 else qs.score⟩ qs' hrun
      obtain ⟨hcq, hbound, hscore⟩ := hstep
      obtain ⟨hlt, hgetel⟩ := List.getElem?_eq_some.mp hq
      have hdrop : qd.drop qs.currentQuestion =
          q :: qd.drop (qs.currentQuestion + 1) := by
        rw [List.drop_eq_getElem_cons hlt, hgetel]
      refine ⟨?_, ?_, ?_⟩
      · rw [hcq]
        simp [Nat.add_assoc, Nat.add_comm 1 rest.length]
      · have hmax : max (qs.currentQuestion + 1) qd.length = qd.length :=
          Nat.max_eq_right hlt
        rw [hmax] at hbound
        exact hbound.trans (le_max_right _ _)
      · rw [hdrop, List.zip_cons_cons, List.countP_cons, hscore]
        by_cases hsel : sel = q.answer
        · simp [hsel]
          omega
        · simp [hsel]

/-- C10: for every selection sequence the quiz accepts, `currentQuestion`
counts the selections made, the score equals the number of selections whose
text equals the stored answer of the question asked at that point (so
`0 ≤ score ≤ currentQuestion ≤ quizData.length`), the result screen displays
exactly that score, a single `selectAnswer` adds one to the score exactly
when the clicked text equals the current stored answer, and `retakeQuiz`
resets both counters to 0. -/
theorem quiz_score_invariant (qd : List QuizQuestion) (sels : List String)
    (qs : QuizState) (hrun : runQuiz qd sels = some qs) :
    qs.currentQuestion = sels.length ∧
    qs.score = correctCount qd sels ∧
    qs.score ≤ qs.currentQuestion ∧
    qs.currentQuestion ≤ qd.length ∧
    (showResult qd qs).1 = correctCount qd sels ∧
    retakeQuiz qs = ⟨0, 0⟩ ∧
    (∀ (sel : String) (q : QuizQuestion), qd[qs.currentQuestion]? = some q →
      selectAnswer qd qs sel =
        some ⟨qs.currentQuestion + 1,
              if sel = q.answer then qs.score + 1 else qs.score⟩) := by
  have h := runQuizFrom_characterization qd sels ⟨0, 0⟩ qs hrun
  obtain ⟨hcq, hbound, hscore⟩ := h
  simp only [List.drop_zero] at hscore
  have hcq0 : qs.currentQuestion = sels.length := by simpa using hcq
  have hscore0 : qs.score = correctCount qd sels := by
    simpa [correctCount] using hscore
  refine ⟨hcq0, hscore0, ?_, ?_, ?_, rfl, ?_⟩
  · calc qs.score = (List.zip sels qd).countP (fun p => p.1 = p.2.answer) := by
          simpa [correctCount] using hscore0
      _ ≤ (List.zip sels qd).length := List.countP_le_length _
      _ ≤ sels.length := by rw [List.length_zip]; exact Nat.min_le_left _ _
      _ = qs.currentQuestion := hcq0.symm
  · simpa using hbound
  · simpa [showResult] using hscore0
  · intro sel q hq
    rw [selectAnswer, hq]

/-- Witness for C10 on the embedded lowerlimb quiz data: answering question 1
correctly and question 2 incorrectly yields state (2, 1). -/
theorem quiz_score_invariant_witness :
    runQuiz quizData ["m iliacus", "m vastus lateralis"] = some ⟨2, 1⟩ ∧
    ((⟨2, 1⟩ : QuizState).currentQuestion =
       (["m iliacus", "m vastus lateralis"] : List String).length ∧
     (⟨2, 1⟩ : QuizState).score =
       correctCount quizData ["m iliacus", "m vastus lateralis"] ∧
     (⟨2, 1⟩ : QuizState).score ≤ (⟨2, 1⟩ : QuizState).currentQuestion ∧
     (⟨2, 1⟩ : QuizState).currentQuestion ≤ quizData.length ∧
     (showResult quizData ⟨2, 1⟩).1 =
       correctCount quizData ["m iliacus", "m vastus lateralis"] ∧
     retakeQuiz ⟨2, 1⟩ = (⟨0, 0⟩ : QuizState) ∧
     (∀ (sel : String) (q : QuizQuestion),
       quizData[(⟨2, 1⟩ : QuizState).currentQuestion]? = some q →
       selectAnswer quizData ⟨2, 1⟩ sel =
         some ⟨(⟨2, 1⟩ : QuizState).currentQuestion + 1,
               if sel = q.answer
               then (⟨2, 1⟩ : QuizState).score + 1
               else (⟨2, 1⟩ : QuizState).score⟩)) :=
  ⟨rfl, quiz_score_invariant quizData ["m iliacus", "m vastus lateralis"]
          ⟨2, 1⟩ rfl⟩
